import Mathlib

/-!
# Verification of the ProductGenerator core scoring logic

Shallow embedding of the two core components of the repository:

* the Collection Matcher (`src/mastra/tools/collectionMatchingTool.ts`,
  `matchProductToCollectionTool.execute`), and
* the Quality Scorer (`src/mastra/tools/qualityValidationTool.ts`,
  `qualityValidationTool.execute`),

together with the threshold configuration from
`src/mastra/config/shopify-config.ts`.

Modelling conventions:

* JavaScript numbers are modelled as exact rationals (`ℚ`); the source
  combines integers and one-decimal constants (0.7, 0.3, 0.4, 0.6) so the
  exact-rational reading matches the arithmetic the code expresses.
* `Math.round` is modelled as `jsRound q = ⌊q + 1/2⌋`, which agrees with
  JavaScript's round-half-towards-positive-infinity on all finite inputs.
* `String.prototype.toLowerCase` is modelled by ASCII lowercasing
  (`String.toLower`); every string constant involved is ASCII.
* `String.prototype.includes` is substring containment
  (`List.isInfixOf` on the character lists).
* `str.split(/regex+/)` (one-or-more separators) is modelled by
  `jsSplitRuns`, which collapses separator runs but keeps the empty
  leading/trailing tokens that JavaScript produces.
* Diagnostic free-text fields (`reasoning` in the matcher output, the
  `message` field of a quality issue) are omitted from the embedding;
  severity and category of each issue are kept.
-/

set_option maxRecDepth 1000000

/-- JavaScript `Math.round` on finite values: round half towards +∞. -/
def jsRound (q : ℚ) : ℤ := Int.floor (q + 1/2)

/-- ASCII lowercasing of one character (all string constants the code
compares are ASCII, where JavaScript `toLowerCase` agrees with this). -/
def lowerChar (c : Char) : Char :=
  if 'A' ≤ c ∧ c ≤ 'Z' then Char.ofNat (c.toNat + 32) else c

/-- `String.prototype.toLowerCase` on ASCII data. -/
def lowerStr (s : String) : String := String.mk (s.data.map lowerChar)

/-- JavaScript string length; for the ASCII strings involved, UTF-16 code
units coincide with characters. -/
def strLen (s : String) : ℕ := s.data.length

/-- `needle` is a prefix of `hay` (character lists). -/
def leadsWith : List Char → List Char → Bool
  | _, [] => true
  | [], _ :: _ => false
  | a :: as, b :: bs => a == b && leadsWith as bs

/-- `needle` occurs contiguously somewhere in `hay` (character lists). -/
def occursIn (needle : List Char) : List Char → Bool
  | [] => needle.isEmpty
  | c :: cs => leadsWith (c :: cs) needle || occursIn needle cs

/-- JavaScript `hay.includes(needle)`: `needle` occurs contiguously in `hay`. -/
def strIncludes (hay needle : String) : Bool := occursIn needle.data hay.data

/-- JavaScript `str.startsWith(pre)`. -/
def strStartsWith (s pre : String) : Bool := leadsWith s.data pre.data

/-- Worker for `splitOnChar`. -/
def splitOnCharGo (sep : Char) : List Char → List Char → List (List Char)
  | [], acc => [acc.reverse]
  | c :: cs, acc =>
    if c == sep then acc.reverse :: splitOnCharGo sep cs []
    else splitOnCharGo sep cs (c :: acc)

/-- JavaScript `str.split(sep)` for a single-character separator: every
occurrence is a split point and empty tokens are kept. -/
def splitOnChar (sep : Char) (s : String) : List String :=
  (splitOnCharGo sep s.data []).map String.mk

/-- The whitespace characters matched by JavaScript's `\s` that can occur in
ASCII input: space, tab, newline, carriage return, vertical tab, form feed. -/
def isJsWhitespace (c : Char) : Bool :=
  c = ' ' || c = '\t' || c = '\n' || c = '\r' || c = '\x0b' || c = '\x0c'

/-- Worker for `jsSplitRuns`: `acc` is the reversed current token, `inSep`
records whether the previous character was a separator (so that a run of
separators produces a single split point, as the `+` in the regex does). -/
def splitRunsGo (isSep : Char → Bool) : List Char → List Char → Bool → List (List Char)
  | [], acc, _ => [acc.reverse]
  | c :: cs, acc, inSep =>
    if isSep c then
      if inSep then splitRunsGo isSep cs acc true
      else acc.reverse :: splitRunsGo isSep cs [] true
    else splitRunsGo isSep cs (c :: acc) false

/-- JavaScript `s.split(/X+/)` for a character class `X`: split on maximal
runs of separator characters, keeping empty first/last tokens exactly as
JavaScript does (`" a".split(/\s+/) = ["", "a"]`, `"".split(/\s+/) = [""]`). -/
def jsSplitRuns (isSep : Char → Bool) (s : String) : List String :=
  (splitRunsGo isSep s.data [] false).map String.mk

section MatcherModel

/-- A catalog entry, `CollectionSchema` from `shopify-config.ts`.
`boost_score` is optional in the schema; the matcher reads it as
`collection.boost_score || 1`. -/
structure Collection where
  id : String
  name : String
  tags_required : List String
  keywords : List String
  boost_score : Option ℚ
deriving DecidableEq, Repr

/-- The confidence-threshold block of `ShopifyConfigSchema`. -/
structure Thresholds where
  auto_publish : ℚ
  quarantine : ℚ
  reject : ℚ
deriving DecidableEq, Repr

/-- The part of `ShopifyConfigSchema` the two core components read. -/
structure ShopifyConfig where
  collections : List Collection
  confidence_thresholds : Thresholds
deriving DecidableEq, Repr

/-- Thresholds hard-coded in `loadShopifyConfigSync` (`shopify-config.ts`,
lines 118-123). -/
def syncConfigThresholds : Thresholds := { auto_publish := 96, quarantine := 75, reject := 60 }

/-- The zod schema defaults for the thresholds (`shopify-config.ts`,
lines 53-57), the "default thresholds" of the specification (75/60/60). -/
def specDefaultThresholds : Thresholds := { auto_publish := 75, quarantine := 60, reject := 60 }

/-- Input of the Collection Matcher (its `inputSchema`). -/
structure MatchInput where
  folder_path : String
  labels : List String
  detected_text : Option (List String)
  product_type : String
deriving DecidableEq, Repr

/-- Output of the Collection Matcher (its `outputSchema`); the diagnostic
`reasoning` string is omitted. -/
structure MatchResult where
  collection_id : String
  collection_name : String
  tags_required : List String
  confidence : ℤ
  matched_keywords : List String
deriving DecidableEq, Repr

/-- Folder-path hints (`collectionMatchingTool.ts` lines 48-50): lowercase
the path, split on `/`, split each part on runs of `[-_\s]`, and keep
tokens longer than 2 characters. -/
def folderHints (folder_path : String) : List String :=
  ((splitOnChar '/' (lowerStr folder_path)).map (fun part =>
    (jsSplitRuns (fun c => c = '-' || c = '_' || isJsWhitespace c) part).filter
      (fun w => 2 < strLen w))).flatten

/-- The searchable terms (lines 53-58): lowercased labels, folder hints,
lowercased detected text (defaulting to empty), and the lowercased
product type, in source order. -/
def searchableTerms (inp : MatchInput) : List String :=
  inp.labels.map lowerStr ++ folderHints inp.folder_path
    ++ (inp.detected_text.getD []).map lowerStr ++ [lowerStr inp.product_type]

/-- Bidirectional containment test of lines 81-87: a keyword counts as
matched when some searchable term contains its lowercasing or its
lowercasing contains the term (each keyword counted at most once,
which the `break` in the source enforces). -/
def keywordHasMatch (terms : List String) (keyword : String) : Bool :=
  terms.any fun t => strIncludes t (lowerStr keyword) || strIncludes (lowerStr keyword) t

/-- `collection.boost_score || 1`: an absent (or zero, which is falsy)
boost score counts as 1. -/
def effBoost (c : Collection) : ℚ :=
  match c.boost_score with
  | some b => if b = 0 then 1 else b
  | none => 1

/-- Channel-bonus condition of lines 90-97: the lowercased folder path
contains the lowercased product type, and the first `channel:`-prefixed
required tag (if any) contains the lowercased product type. -/
def channelBonus (inp : MatchInput) (c : Collection) : Bool :=
  strIncludes (lowerStr inp.folder_path) (lowerStr inp.product_type) &&
    (match c.tags_required.find? (fun tag => strStartsWith tag "channel:") with
     | some tag => strIncludes (lowerStr tag) (lowerStr inp.product_type)
     | none => false)

/-- One entry of the `scores` array built in the matcher loop. -/
structure ScoredCollection where
  collection : Collection
  score : ℚ
  matched_keywords : List String
deriving DecidableEq, Repr

/-- Scoring one collection (loop body, lines 72-106): each matched keyword
adds the boost score once, and the channel bonus adds 2 and a synthetic
matched keyword. The loop's incremental `score +=` over the matched
keywords equals `boost × (number of matched keywords)` because the boost
is fixed per collection. -/
def scoreCollection (inp : MatchInput) (terms : List String) (c : Collection) :
    ScoredCollection :=
  let matched := c.keywords.filter (fun kw => keywordHasMatch terms kw)
  let bonus := channelBonus inp c
  { collection := c,
    score := effBoost c * matched.length + (if bonus then 2 else 0),
    matched_keywords :=
      matched ++ (if bonus then [inp.product_type ++ " (channel match)"] else []) }

/-- The `scores` array: only collections with a strictly positive score are
pushed (line 99). -/
def scoredEntries (cfg : ShopifyConfig) (inp : MatchInput) : List ScoredCollection :=
  (cfg.collections.map (scoreCollection inp (searchableTerms inp))).filter
    (fun s => decide (0 < s.score))

/-- Descending comparison used by `scores.sort((a, b) => b.score - a.score)`. -/
def scoredGE (a b : ScoredCollection) : Prop := b.score ≤ a.score

instance : DecidableRel scoredGE := fun a b => inferInstanceAs (Decidable (b.score ≤ a.score))

/-- Fallback collection (lines 124-126): the first collection one of whose
required tags contains the lowercased product type, else the first
collection of the catalog (`undefined`, i.e. `none`, on an empty catalog). -/
def fallbackCollection (cfg : ShopifyConfig) (productTypeLower : String) : Option Collection :=
  match cfg.collections.find? (fun c =>
      c.tags_required.any (fun tag => strIncludes tag productTypeLower)) with
  | some c => some c
  | none => cfg.collections.head?

/-- The fallback result (lines 128-135): fixed confidence 30, no matched
keywords. -/
def fallbackResult (c : Collection) : MatchResult :=
  { collection_id := c.id, collection_name := c.name, tags_required := c.tags_required,
    confidence := 30, matched_keywords := [] }

/-- The Collection Matcher, `matchProductToCollectionTool.execute`.
JavaScript's `Array.prototype.sort` is stable, so sorting descending by
score and taking element 0 is modelled by a stable insertion sort.
`none` is returned exactly when the catalog is empty and nothing scored
(where the source would throw reading `undefined.id`). -/
def matchProductToCollection (cfg : ShopifyConfig) (inp : MatchInput) : Option MatchResult :=
  match List.insertionSort scoredGE (scoredEntries cfg inp) with
  | [] => (fallbackCollection cfg (lowerStr inp.product_type)).map fallbackResult
  | best :: _ =>
    some { collection_id := best.collection.id,
           collection_name := best.collection.name,
           tags_required := best.collection.tags_required,
           confidence := min 100 (jsRound (best.score / (best.collection.keywords.length : ℚ) * 100)),
           matched_keywords := best.matched_keywords }

end MatcherModel

section MatcherExampleData

/-- Concrete catalog of the specification's matcher example scenario. -/
def exampleCatalog : ShopifyConfig :=
  { collections := [{ id := "cat1", name := "Baseball", tags_required := ["channel:dtf"],
                      keywords := ["baseball", "dtf"], boost_score := some 1 }],
    confidence_thresholds := syncConfigThresholds }

/-- Concrete input of the specification's matcher example scenario. -/
def exampleMatchInput : MatchInput :=
  { folder_path := "DTF Designs/Baseball-Team", labels := ["baseball", "jersey"],
    detected_text := none, product_type := "DTF" }

end MatcherExampleData

section ScorerModel

/-- Issue severity (`qualityValidationTool.ts` output schema). -/
inductive Severity where
  | critical
  | warning
  | info
deriving DecidableEq, Repr

/-- The three dispositions of the scorer. -/
inductive Status where
  | auto_publish
  | review
  | reject
deriving DecidableEq, Repr

/-- Input of the Quality Scorer (its `inputSchema`). -/
structure ScorerInput where
  title : String
  description : String
  meta_description : String
  tags : List String
  collection_match_confidence : ℚ
  has_images : Bool
  variant_count : ℚ
  recent_descriptions : Option (List String)
deriving DecidableEq, Repr

/-- A quality issue; the free-text `message` of the source is omitted,
severity and category are kept. -/
structure QIssue where
  severity : Severity
  category : String
deriving DecidableEq, Repr

/-- The four sub-scores of the scorer output. -/
structure QualityScores where
  content_quality : ℚ
  completeness : ℚ
  uniqueness : ℚ
  seo_readiness : ℚ
deriving DecidableEq, Repr

/-- Output of the Quality Scorer (its `outputSchema`). -/
structure ScorerResult where
  overall_confidence : ℤ
  status : Status
  issues : List QIssue
  quality_scores : QualityScores
deriving DecidableEq, Repr

/-- The word set of a description (`new Set(desc.toLowerCase().split(/\s+/))`,
lines 159 and 162): lowercase, split on whitespace runs, deduplicate.
The deduplicated list stands for the JavaScript `Set`; only its size and
membership are consumed. -/
def wordsOf (s : String) : List String :=
  (jsSplitRuns isJsWhitespace (lowerStr s)).dedup

/-- Word-overlap similarity of lines 163-167: distinct shared words longer
than 5 characters, divided by the smaller of the two set sizes. -/
def similarity (currentWords : List String) (recent : String) : ℚ :=
  let recentWords := wordsOf recent
  let common := currentWords.filter (fun w => recentWords.contains w && decide (5 < strLen w))
  (common.length : ℚ) / (min currentWords.length recentWords.length : ℚ)

/-- The anti-repetition loop (lines 161-185), returning the total uniqueness
penalty and the issues it pushes, in loop order. Similarity above 0.6
costs 30 with a warning and breaks the loop; similarity above 0.4 costs
10 with an info issue and continues. -/
def uniquenessScan (currentWords : List String) : List String → ℚ × List QIssue
  | [] => (0, [])
  | r :: rs =>
    let sim := similarity currentWords r
    if 3/5 < sim then (30, [{ severity := Severity.warning, category := "uniqueness" }])
    else if 2/5 < sim then
      let rest := uniquenessScan currentWords rs
      (10 + rest.1, { severity := Severity.info, category := "uniqueness" } :: rest.2)
    else uniquenessScan currentWords rs

/-- Guard of line 158: the loop runs only when `recent_descriptions` is
present and non-empty. -/
def uniquenessResult (inp : ScorerInput) : ℚ × List QIssue :=
  match inp.recent_descriptions with
  | some rs => if 0 < rs.length then uniquenessScan (wordsOf inp.description) rs else (0, [])
  | none => (0, [])

/-- The seven boilerplate phrases of lines 127-135. -/
def genericPhrases : List String :=
  ["perfect for", "great gift", "high quality", "premium quality", "best choice",
   "don\x27t miss out", "limited time"]

/-- `genericPhrases.filter(phrase => descLower.includes(phrase))` (line 137). -/
def foundGenericPhrases (description : String) : List String :=
  genericPhrases.filter (fun p => strIncludes (lowerStr description) p)

/-- Completeness sub-score (checks of lines 59-93): 100 minus the penalties
for a missing/short title, missing/short description, missing images and
zero variants. -/
def completenessScore (inp : ScorerInput) : ℚ :=
  100 - (if inp.title = "" ∨ strLen inp.title < 10 then 30 else 0)
      - (if inp.description = "" ∨ strLen inp.description < 100 then 30 else 0)
      - (if inp.has_images then 0 else 40)
      - (if inp.variant_count = 0 then 20 else 0)

/-- SEO sub-score (checks of lines 96-121). -/
def seoScore (inp : ScorerInput) : ℚ :=
  100 - (if 160 < strLen inp.meta_description then 15 else 0)
      - (if strLen inp.meta_description < 120 then 5 else 0)
      - (if inp.tags.length < 3 then 15 else 0)

/-- Content-quality sub-score (checks of lines 124-155 and the
collection-confidence integration of lines 189-196). -/
def contentQualityScore (inp : ScorerInput) : ℚ :=
  100 - (if 2 < (foundGenericPhrases inp.description).length then 20 else 0)
      - (if 500 < strLen inp.description then 5 else 0)
      - (if inp.collection_match_confidence < 70 then 15 else 0)

/-- Uniqueness sub-score: 100 minus the anti-repetition penalty. -/
def uniquenessScore (inp : ScorerInput) : ℚ :=
  100 - (uniquenessResult inp).1

/-- The `quality_scores` object of the result. -/
def subScores (inp : ScorerInput) : QualityScores :=
  { content_quality := contentQualityScore inp,
    completeness := completenessScore inp,
    uniqueness := uniquenessScore inp,
    seo_readiness := seoScore inp }

/-- Lines 198-209: average of the four sub-scores, weighted 70/30 against
the collection-match confidence, rounded. -/
def overallConfidence (inp : ScorerInput) : ℤ :=
  jsRound (((contentQualityScore inp + completenessScore inp + uniquenessScore inp
      + seoScore inp) / 4) * (7/10) + inp.collection_match_confidence * (3/10))

/-- Threshold comparison of lines 215-222. -/
def disposition (t : Thresholds) (overall : ℤ) : Status :=
  if t.auto_publish ≤ (overall : ℚ) then Status.auto_publish
  else if t.quarantine ≤ (overall : ℚ) then Status.review
  else Status.reject

/-- The issues array, in source push order: completeness (4 checks), SEO
(3 checks), generic phrases, description length, anti-repetition,
collection-match confidence. -/
def scorerIssues (inp : ScorerInput) : List QIssue :=
  (if inp.title = "" ∨ strLen inp.title < 10
     then [{ severity := Severity.critical, category := "completeness" }] else [])
  ++ (if inp.description = "" ∨ strLen inp.description < 100
     then [{ severity := Severity.critical, category := "completeness" }] else [])
  ++ (if inp.has_images then []
     else [{ severity := Severity.critical, category := "completeness" }])
  ++ (if inp.variant_count = 0
     then [{ severity := Severity.warning, category := "completeness" }] else [])
  ++ (if 160 < strLen inp.meta_description
     then [{ severity := Severity.warning, category := "seo" }] else [])
  ++ (if strLen inp.meta_description < 120
     then [{ severity := Severity.info, category := "seo" }] else [])
  ++ (if inp.tags.length < 3
     then [{ severity := Severity.warning, category := "seo" }] else [])
  ++ (if 2 < (foundGenericPhrases inp.description).length
     then [{ severity := Severity.warning, category := "content_quality" }] else [])
  ++ (if 500 < strLen inp.description
     then [{ severity := Severity.info, category := "content_quality" }] else [])
  ++ (uniquenessResult inp).2
  ++ (if inp.collection_match_confidence < 70
     then [{ severity := Severity.warning, category := "categorization" }] else [])

/-- The Quality Scorer, `qualityValidationTool.execute`. The thresholds are
the `confidence_thresholds` of the loaded configuration, passed here as a
parameter. -/
def qualityValidation (t : Thresholds) (inp : ScorerInput) : ScorerResult :=
  { overall_confidence := overallConfidence inp,
    status := disposition t (overallConfidence inp),
    issues := scorerIssues inp,
    quality_scores := subScores inp }

end ScorerModel

section ScorerExampleData

/-- Concrete input of the specification's scorer example scenario. -/
def exampleScorerInput : ScorerInput :=
  { title := "Home Run Hero",
    description := String.mk (List.replicate 150 'x'),
    meta_description := String.mk (List.replicate 140 'y'),
    tags := ["a", "b", "c", "d"],
    collection_match_confidence := 90,
    has_images := true,
    variant_count := 5,
    recent_descriptions := some [] }

end ScorerExampleData

section CounterexampleData

/-- Scorer input with stacking info-severity uniqueness penalties: the
description shares exactly half of its long words with each of 40 recent
descriptions. -/
def negativeScoreInput : ScorerInput :=
  { title := "",
    description := "abcdef ghijkl",
    meta_description := "",
    tags := ["a", "b", "c"],
    collection_match_confidence := 0,
    has_images := false,
    variant_count := 5,
    recent_descriptions := some (List.replicate 40 "abcdef qqqqqq") }

/-- C3 counterexample candidate: empty title/description, no images, but a
high collection-match confidence. -/
def emptyContentHighCmc : ScorerInput :=
  { title := "",
    description := "",
    meta_description := String.mk (List.replicate 140 'y'),
    tags := ["a", "b", "c"],
    collection_match_confidence := 100,
    has_images := false,
    variant_count := 5,
    recent_descriptions := none }

/-- C5 counterexample candidate: no keyword matches, yet the channel bonus
fires. -/
def noKeywordCatalog : ShopifyConfig :=
  { collections := [{ id := "c1", name := "Cat", tags_required := ["channel:dtf"],
                      keywords := ["zzz"], boost_score := some 1 }],
    confidence_thresholds := syncConfigThresholds }

def noKeywordInput : MatchInput :=
  { folder_path := "dtf", labels := [], detected_text := none, product_type := "dtf" }

end CounterexampleData

section DispositionClaims

/-- The status of the scorer output is the disposition of its own overall
confidence. -/
theorem qualityValidation_status (t : Thresholds) (inp : ScorerInput) :
    (qualityValidation t inp).status
      = disposition t ((qualityValidation t inp).overall_confidence) := rfl

/-- C2: for every scorer input and every threshold configuration, the
disposition is determined inclusively against the two upper thresholds:
`auto_publish` iff overall ≥ auto-publish threshold, `review` iff
quarantine threshold ≤ overall < auto-publish threshold, `reject`
otherwise (iff overall is below both). -/
theorem scorer_disposition_inclusive (t : Thresholds) (inp : ScorerInput) :
    ((qualityValidation t inp).status = Status.auto_publish
        ↔ t.auto_publish ≤ ((qualityValidation t inp).overall_confidence : ℚ))
    ∧ ((qualityValidation t inp).status = Status.review
        ↔ t.quarantine ≤ ((qualityValidation t inp).overall_confidence : ℚ)
            ∧ ((qualityValidation t inp).overall_confidence : ℚ) < t.auto_publish)
    ∧ ((qualityValidation t inp).status = Status.reject
        ↔ ((qualityValidation t inp).overall_confidence : ℚ) < t.auto_publish
            ∧ ((qualityValidation t inp).overall_confidence : ℚ) < t.quarantine) := by
  rw [qualityValidation_status]
  set o : ℚ := ((qualityValidation t inp).overall_confidence : ℚ) with ho
  unfold disposition
  rw [← ho]
  split_ifs with h1 h2
  · exact ⟨iff_of_true rfl h1,
      iff_of_false (by decide) (by rintro ⟨-, hlt⟩; exact absurd h1 (not_le.mpr hlt)),
      iff_of_false (by decide) (by rintro ⟨hlt, -⟩; exact absurd h1 (not_le.mpr hlt))⟩
  · exact ⟨iff_of_false (by decide) (fun hle => h1 hle),
      iff_of_true rfl ⟨h2, not_le.mp h1⟩,
      iff_of_false (by decide) (by rintro ⟨-, hlt⟩; exact absurd h2 (not_le.mpr hlt))⟩
  · exact ⟨iff_of_false (by decide) (fun hle => h1 hle),
      iff_of_false (by decide) (by rintro ⟨hle, -⟩; exact h2 hle),
      iff_of_true rfl ⟨not_le.mp h1, not_le.mp h2⟩⟩

/-- C10: the scorer output never depends on the configured reject
threshold: two threshold configurations that agree on `auto_publish` and
`quarantine` and differ only in `reject` produce identical results. -/
theorem scorer_ignores_reject_threshold (inp : ScorerInput) (a q r1 r2 : ℚ) :
    qualityValidation { auto_publish := a, quarantine := q, reject := r1 } inp
      = qualityValidation { auto_publish := a, quarantine := q, reject := r2 } inp := rfl

end DispositionClaims

section MatcherClaims

/-- Inserting into a sorted list never yields the empty list. -/
theorem orderedInsert_ne_nil {α : Type} (r : α → α → Prop) [DecidableRel r]
    (a : α) (l : List α) : List.orderedInsert r a l ≠ [] := by
  cases l with
  | nil => simp [List.orderedInsert]
  | cons b bs =>
    simp only [List.orderedInsert]
    split_ifs <;> simp

/-- The insertion sort of a list is empty exactly when the list is. -/
theorem insertionSort_eq_nil_iff {α : Type} (r : α → α → Prop) [DecidableRel r]
    (l : List α) : List.insertionSort r l = [] ↔ l = [] := by
  cases l with
  | nil => simp
  | cons a as =>
    simp only [List.insertionSort]
    exact ⟨fun h => absurd h (orderedInsert_ne_nil r a _), fun h => by cases h⟩

/-- On a non-empty catalog the fallback collection exists. -/
theorem fallbackCollection_isSome (cfg : ShopifyConfig) (pt : String)
    (h : cfg.collections ≠ []) : ∃ c, fallbackCollection cfg pt = some c := by
  unfold fallbackCollection
  cases hf : cfg.collections.find? (fun c =>
      c.tags_required.any (fun tag => strIncludes tag pt)) with
  | some c => exact ⟨c, rfl⟩
  | none =>
    cases hc : cfg.collections with
    | nil => exact absurd hc h
    | cons a as => exact ⟨a, by simp⟩

/-- C1: on every non-empty catalog the Collection Matcher returns exactly
one result (it is total and never hits the empty-catalog `undefined`
access), and whenever no collection scores above 0 that result is the
fallback: the first collection one of whose required tags contains the
lowercased product type, else the first collection of the catalog, at
confidence 30 with no matched keywords (`fallbackResult`). -/
theorem matcher_total_with_fallback (cfg : ShopifyConfig) (inp : MatchInput)
    (h : cfg.collections ≠ []) :
    (∃ r, matchProductToCollection cfg inp = some r)
    ∧ (scoredEntries cfg inp = [] →
        ∃ c, fallbackCollection cfg (lowerStr inp.product_type) = some c
          ∧ matchProductToCollection cfg inp = some (fallbackResult c)) := by
  cases hs : List.insertionSort scoredGE (scoredEntries cfg inp) with
  | nil =>
    obtain ⟨c, hc⟩ := fallbackCollection_isSome cfg (lowerStr inp.product_type) h
    refine ⟨⟨fallbackResult c, ?_⟩, fun _ => ⟨c, hc, ?_⟩⟩ <;>
      simp [matchProductToCollection, hs, hc]
  | cons best rest =>
    refine ⟨⟨{ collection_id := best.collection.id,
               collection_name := best.collection.name,
               tags_required := best.collection.tags_required,
               confidence := min 100 (jsRound
                 (best.score / (best.collection.keywords.length : ℚ) * 100)),
               matched_keywords := best.matched_keywords },
             by simp [matchProductToCollection, hs]⟩, fun hse => ?_⟩
    rw [hse] at hs
    simp at hs

/-- C8: every result the Collection Matcher returns on a non-empty catalog
carries a confidence in [0, 100]: the fallback path returns exactly 30,
and the match path returns `min 100 (round (score / keyword_count × 100))`
with a strictly positive score. -/
theorem matcher_confidence_bounds (cfg : ShopifyConfig) (inp : MatchInput)
    (h : cfg.collections ≠ []) :
    ∃ r, matchProductToCollection cfg inp = some r
      ∧ 0 ≤ r.confidence ∧ r.confidence ≤ 100 := by
  cases hs : List.insertionSort scoredGE (scoredEntries cfg inp) with
  | nil =>
    obtain ⟨c, hc⟩ := fallbackCollection_isSome cfg (lowerStr inp.product_type) h
    refine ⟨fallbackResult c, by simp [matchProductToCollection, hs, hc], by norm_num [fallbackResult]⟩
  | cons best rest =>
    have hmem : best ∈ scoredEntries cfg inp := by
      have hperm := List.perm_insertionSort scoredGE (scoredEntries cfg inp)
      rw [hs] at hperm
      exact hperm.subset (List.mem_cons_self best rest)
    have hpos : 0 < best.score := by
      have hf := (List.mem_filter.mp (by unfold scoredEntries at hmem; exact hmem)).2
      exact of_decide_eq_true hf
    refine ⟨{ collection_id := best.collection.id,
              collection_name := best.collection.name,
              tags_required := best.collection.tags_required,
              confidence := min 100 (jsRound
                (best.score / (best.collection.keywords.length : ℚ) * 100)),
              matched_keywords := best.matched_keywords },
            by simp [matchProductToCollection, hs], ?_, ?_⟩
    · have hq : (0:ℚ) ≤ best.score / (best.collection.keywords.length : ℚ) * 100 :=
        mul_nonneg (div_nonneg hpos.le (Nat.cast_nonneg _)) (by norm_num)
      have hr : (0:ℤ) ≤ jsRound (best.score / (best.collection.keywords.length : ℚ) * 100) := by
        unfold jsRound
        exact Int.le_floor.mpr (by push_cast; linarith)
      exact le_min (by norm_num) hr
    · exact min_le_left _ _

end MatcherClaims

section MatcherClaimWitnesses

/-- Witness for `matcher_total_with_fallback` at the concrete example
catalog and input. -/
theorem matcher_total_with_fallback_witness :
    (∃ r, matchProductToCollection exampleCatalog exampleMatchInput = some r)
    ∧ (scoredEntries exampleCatalog exampleMatchInput = [] →
        ∃ c, fallbackCollection exampleCatalog (lowerStr exampleMatchInput.product_type) = some c
          ∧ matchProductToCollection exampleCatalog exampleMatchInput
              = some (fallbackResult c)) :=
  matcher_total_with_fallback exampleCatalog exampleMatchInput (by decide)

/-- Witness for `matcher_confidence_bounds` at the concrete example catalog
and input. -/
theorem matcher_confidence_bounds_witness :
    ∃ r, matchProductToCollection exampleCatalog exampleMatchInput = some r
      ∧ 0 ≤ r.confidence ∧ r.confidence ≤ 100 :=
  matcher_confidence_bounds exampleCatalog exampleMatchInput (by decide)

end MatcherClaimWitnesses

section UniquenessLemmas

/-- The anti-repetition loop only ever accumulates a non-negative penalty. -/
theorem uniquenessScan_fst_nonneg (cw : List String) (rs : List String) :
    0 ≤ (uniquenessScan cw rs).1 := by
  induction rs with
  | nil => simp [uniquenessScan]
  | cons r rs ih =>
    simp only [uniquenessScan]
    split_ifs with h1 h2
    · norm_num
    · show 0 ≤ 10 + (uniquenessScan cw rs).1
      linarith
    · exact ih

/-- The uniqueness penalty of a scorer input is non-negative. -/
theorem uniquenessResult_fst_nonneg (inp : ScorerInput) :
    0 ≤ (uniquenessResult inp).1 := by
  unfold uniquenessResult
  cases inp.recent_descriptions with
  | none => norm_num
  | some rs =>
    show 0 ≤ (if 0 < rs.length then uniquenessScan (wordsOf inp.description) rs
              else ((0 : ℚ), ([] : List QIssue))).1
    split_ifs
    · exact uniquenessScan_fst_nonneg _ _
    · norm_num

end UniquenessLemmas

section EmptyContentClaims

/-- C3 counterexample: a well-typed scorer input with `has_images = false`,
empty title and empty description whose status under the default
thresholds (75/60/60) is `auto_publish`, not `reject` — the high
collection-match confidence (100, within its documented 0-100 range)
lifts the overall confidence to 83. -/
theorem scorer_empty_content_not_always_reject :
    emptyContentHighCmc.title = "" ∧ emptyContentHighCmc.description = ""
    ∧ emptyContentHighCmc.has_images = false
    ∧ (qualityValidation specDefaultThresholds emptyContentHighCmc).status
        = Status.auto_publish :=
  ⟨rfl, rfl, rfl, by with_unfolding_all rfl⟩

/-- C3 (amended): for every scorer input with `has_images = false`, empty
title and empty description, the completeness sub-score is ≤ 0 (the
30+30+40 penalties all fire); and when additionally the collection-match
confidence is at most 32, the status under the default thresholds
(75/60/60) is `reject`. -/
theorem scorer_empty_content_reject (inp : ScorerInput)
    (ht : inp.title = "") (hd : inp.description = "") (hi : inp.has_images = false) :
    (qualityValidation specDefaultThresholds inp).quality_scores.completeness ≤ 0
    ∧ (inp.collection_match_confidence ≤ 32 →
        (qualityValidation specDefaultThresholds inp).status = Status.reject) := by
  have hcompl : completenessScore inp ≤ 0 := by
    unfold completenessScore
    rw [if_pos (Or.inl ht), if_pos (Or.inl hd), hi]
    norm_num
    split_ifs <;> norm_num
  refine ⟨hcompl, fun hc => ?_⟩
  have h70 : inp.collection_match_confidence < 70 := lt_of_le_of_lt hc (by norm_num)
  have hcq : contentQualityScore inp ≤ 85 := by
    unfold contentQualityScore
    rw [if_pos h70]
    split_ifs <;> norm_num
  have huniq : uniquenessScore inp ≤ 100 := by
    unfold uniquenessScore
    have := uniquenessResult_fst_nonneg inp
    linarith
  have hseo : seoScore inp ≤ 100 := by
    unfold seoScore
    split_ifs <;> norm_num
  have hover : ((overallConfidence inp : ℤ) : ℚ) < 60 := by
    unfold overallConfidence jsRound
    have hfl := Int.floor_le (((contentQualityScore inp + completenessScore inp
      + uniquenessScore inp + seoScore inp) / 4) * (7/10)
      + inp.collection_match_confidence * (3/10) + 1/2)
    linarith
  rw [qualityValidation_status]
  show disposition specDefaultThresholds (overallConfidence inp) = Status.reject
  have e1 : specDefaultThresholds.auto_publish = 75 := rfl
  have e2 : specDefaultThresholds.quarantine = 60 := rfl
  unfold disposition
  rw [e1, e2, if_neg (by push_neg; linarith), if_neg (by push_neg; linarith)]

/-- Input witnessing the amended C3 theorem. -/
def rejectWitnessInput : ScorerInput :=
  { title := "", description := "", meta_description := "", tags := [],
    collection_match_confidence := 0, has_images := false, variant_count := 0,
    recent_descriptions := none }

/-- Witness for `scorer_empty_content_reject` at a concrete input, also
discharging the collection-match-confidence bound of the reject part. -/
theorem scorer_empty_content_reject_witness :
    (qualityValidation specDefaultThresholds rejectWitnessInput).quality_scores.completeness ≤ 0
    ∧ (qualityValidation specDefaultThresholds rejectWitnessInput).status = Status.reject :=
  ⟨(scorer_empty_content_reject rejectWitnessInput rfl rfl rfl).1,
   (scorer_empty_content_reject rejectWitnessInput rfl rfl rfl).2
     (by norm_num [rejectWitnessInput])⟩

end EmptyContentClaims

section NoMatchClaims

/-- C5 counterexample: a catalog and input where no keyword of any category
matches any searchable term, yet the matcher does not return the
30-confidence fallback: the channel bonus alone scores the category
(folder path "dtf" contains product type "dtf" and tag "channel:dtf"
contains it too), so the result has confidence 100 and a non-empty
matched-keyword list. -/
theorem matcher_no_keyword_match_not_fallback :
    (∀ c ∈ noKeywordCatalog.collections, ∀ kw ∈ c.keywords,
        keywordHasMatch (searchableTerms noKeywordInput) kw = false)
    ∧ matchProductToCollection noKeywordCatalog noKeywordInput =
        some { collection_id := "c1", collection_name := "Cat",
               tags_required := ["channel:dtf"], confidence := 100,
               matched_keywords := ["dtf (channel match)"] } := by
  constructor
  · decide
  · with_unfolding_all rfl

/-- C5 (amended): for every catalog and input in which no keyword of any
category matches any searchable term AND no category receives the
channel-match bonus, the matcher returns the fallback collection mapped
through `fallbackResult`, i.e. with confidence exactly 30 and an empty
matched-keyword list. -/
theorem matcher_fallback_when_no_match (cfg : ShopifyConfig) (inp : MatchInput)
    (hkw : ∀ c ∈ cfg.collections, ∀ kw ∈ c.keywords,
        keywordHasMatch (searchableTerms inp) kw = false)
    (hbonus : ∀ c ∈ cfg.collections, channelBonus inp c = false) :
    matchProductToCollection cfg inp
      = (fallbackCollection cfg (lowerStr inp.product_type)).map fallbackResult := by
  have hse : scoredEntries cfg inp = [] := by
    unfold scoredEntries
    rw [List.filter_eq_nil_iff]
    intro s hs
    obtain ⟨c, hc, rfl⟩ := List.mem_map.mp hs
    have hm : c.keywords.filter (fun kw => keywordHasMatch (searchableTerms inp) kw) = [] := by
      rw [List.filter_eq_nil_iff]
      intro kw hkwm
      simp [hkw c hc kw hkwm]
    simp [scoreCollection, hm, hbonus c hc]
  have hs0 : List.insertionSort scoredGE (scoredEntries cfg inp) = [] := by
    rw [hse]
    rfl
  simp [matchProductToCollection, hs0]

/-- Catalog witnessing the amended C5 theorem: its only keyword matches
nothing and its channel tag never earns the bonus. -/
def noMatchCatalog : ShopifyConfig :=
  { collections := [{ id := "c2", name := "Pod", tags_required := ["channel:pod"],
                      keywords := ["zzz"], boost_score := none }],
    confidence_thresholds := syncConfigThresholds }

/-- Input witnessing the amended C5 theorem. -/
def noMatchInput : MatchInput :=
  { folder_path := "misc", labels := [], detected_text := none, product_type := "dtf" }

/-- Witness for `matcher_fallback_when_no_match` at a concrete catalog and
input. -/
theorem matcher_fallback_when_no_match_witness :
    matchProductToCollection noMatchCatalog noMatchInput
      = (fallbackCollection noMatchCatalog (lowerStr noMatchInput.product_type)).map
          fallbackResult :=
  matcher_fallback_when_no_match noMatchCatalog noMatchInput (by decide) (by decide)

end NoMatchClaims

section UniquenessBreakClaim

/-- Behaviour of the anti-repetition loop when the first recent description
with similarity above 0.6 is reached: the loop subtracts exactly 30 for
it, records one warning issue after the info issues of the earlier
recents (10 each for those with similarity above 0.4), and never looks at
the descriptions after it. -/
theorem uniquenessScan_cons (cw : List String) (r : String) (rs : List String) :
    uniquenessScan cw (r :: rs)
      = if 3/5 < similarity cw r
          then ((30 : ℚ), [{ severity := Severity.warning, category := "uniqueness" }])
        else if 2/5 < similarity cw r
          then (10 + (uniquenessScan cw rs).1,
                { severity := Severity.info, category := "uniqueness" }
                  :: (uniquenessScan cw rs).2)
        else uniquenessScan cw rs := rfl

theorem uniquenessScan_first_high (cw : List String) (pre : List String)
    (r : String) (post : List String)
    (hpre : ∀ d ∈ pre, similarity cw d ≤ 3/5) (hr : 3/5 < similarity cw r) :
    uniquenessScan cw (pre ++ r :: post)
      = (30 + 10 * ((pre.countP fun d => decide (2/5 < similarity cw d)) : ℚ),
         (pre.filter fun d => decide (2/5 < similarity cw d)).map
             (fun _ => { severity := Severity.info, category := "uniqueness" })
           ++ [{ severity := Severity.warning, category := "uniqueness" }]) := by
  induction pre with
  | nil =>
    rw [List.nil_append, uniquenessScan_cons, if_pos hr]
    simp
  | cons d pre ih =>
    have hd : ¬(3/5 < similarity cw d) := not_lt.mpr (hpre d (List.mem_cons_self d pre))
    have ih2 := ih (fun x hx => hpre x (List.mem_cons_of_mem d hx))
    rw [List.cons_append, uniquenessScan_cons, if_neg hd]
    by_cases h4 : 2/5 < similarity cw d
    · rw [if_pos h4, ih2]
      simp only [Prod.mk.injEq, List.countP_cons, List.filter_cons]
      refine ⟨?_, ?_⟩
      · rw [if_pos (decide_eq_true h4)]
        push_cast
        ring
      · simp [h4]
    · rw [if_neg h4, ih2]
      simp only [Prod.mk.injEq, List.countP_cons, List.filter_cons]
      refine ⟨?_, ?_⟩ <;> simp [h4]

/-- C6: whenever some recent description has word-overlap similarity above
0.6 with the scorer input's description, the scorer applies a uniqueness
penalty of exactly 30 for it (on top of 10 per earlier recent in the
(0.4, 0.6] band), records a warning-severity uniqueness issue, and stops
at the first such recent: the whole result equals the result computed on
the list truncated right after it. -/
theorem scorer_uniqueness_break (t : Thresholds) (inp : ScorerInput)
    (pre post : List String) (r : String)
    (hrs : inp.recent_descriptions = some (pre ++ r :: post))
    (hpre : ∀ d ∈ pre, similarity (wordsOf inp.description) d ≤ 3/5)
    (hr : 3/5 < similarity (wordsOf inp.description) r) :
    (qualityValidation t inp).quality_scores.uniqueness
      = 100 - 30 - 10 * ((pre.countP fun d =>
          decide (2/5 < similarity (wordsOf inp.description) d)) : ℚ)
    ∧ ({ severity := Severity.warning, category := "uniqueness" } : QIssue)
        ∈ (qualityValidation t inp).issues
    ∧ qualityValidation t inp
        = qualityValidation t { inp with recent_descriptions := some (pre ++ [r]) } := by
  have hu1 : uniquenessResult inp
      = uniquenessScan (wordsOf inp.description) (pre ++ r :: post) := by
    unfold uniquenessResult
    rw [hrs]
    simp
  have hu2 : uniquenessResult { inp with recent_descriptions := some (pre ++ [r]) }
      = uniquenessScan (wordsOf inp.description) (pre ++ [r]) := by
    unfold uniquenessResult
    simp
  have hscan1 := uniquenessScan_first_high (wordsOf inp.description) pre r post hpre hr
  have hscan2 := uniquenessScan_first_high (wordsOf inp.description) pre r [] hpre hr
  refine ⟨?_, ?_, ?_⟩
  · show uniquenessScore inp = _
    unfold uniquenessScore
    rw [hu1, hscan1]
    ring
  · show _ ∈ scorerIssues inp
    unfold scorerIssues
    rw [hu1, hscan1]
    simp
  · have hures : uniquenessResult inp
        = uniquenessResult { inp with recent_descriptions := some (pre ++ [r]) } := by
      rw [hu1, hu2, hscan1, hscan2]
    show (⟨overallConfidence inp, disposition t (overallConfidence inp),
           scorerIssues inp, subScores inp⟩ : ScorerResult) = _
    unfold overallConfidence scorerIssues subScores uniquenessScore
    rw [hures]
    rfl

end UniquenessBreakClaim

section UniquenessBreakWitness

/-- Input witnessing `scorer_uniqueness_break`: the single recent
description is identical to the current one (similarity 1). -/
def uniqWitnessInput : ScorerInput :=
  { title := "Witness Product", description := "abcdef ghijkl", meta_description := "",
    tags := [], collection_match_confidence := 50, has_images := true,
    variant_count := 1, recent_descriptions := some ["abcdef ghijkl"] }

/-- Witness for `scorer_uniqueness_break` at a concrete input. -/
theorem scorer_uniqueness_break_witness :
    (qualityValidation specDefaultThresholds uniqWitnessInput).quality_scores.uniqueness
      = 100 - 30 - 10 * ((List.countP (fun d =>
          decide (2/5 < similarity (wordsOf uniqWitnessInput.description) d)) []) : ℚ)
    ∧ ({ severity := Severity.warning, category := "uniqueness" } : QIssue)
        ∈ (qualityValidation specDefaultThresholds uniqWitnessInput).issues
    ∧ qualityValidation specDefaultThresholds uniqWitnessInput
        = qualityValidation specDefaultThresholds
            { uniqWitnessInput with
              recent_descriptions := some ([] ++ ["abcdef ghijkl"]) } :=
  scorer_uniqueness_break specDefaultThresholds uniqWitnessInput [] [] "abcdef ghijkl"
    rfl (by simp) (of_decide_eq_true (by with_unfolding_all rfl))

end UniquenessBreakWitness

section ExampleScenarioClaims

/-- C7: on the specification's example scenario — a one-category catalog
with keywords ["baseball", "dtf"] and required tag "channel:dtf", input
labels ["baseball", "jersey"], folder path "DTF Designs/Baseball-Team",
product type "DTF" — the matcher returns that category with "baseball"
and "dtf" among the matched keywords and confidence exactly 100 (the
channel bonus also records its synthetic matched keyword). -/
theorem matcher_example_scenario :
    matchProductToCollection exampleCatalog exampleMatchInput =
      some { collection_id := "cat1", collection_name := "Baseball",
             tags_required := ["channel:dtf"], confidence := 100,
             matched_keywords := ["baseball", "dtf", "DTF (channel match)"] } := by
  with_unfolding_all rfl

/-- C4: on the specification's scorer example scenario (title "Home Run
Hero", 150-character description, 140-character meta description, four
tags, collection-match confidence 90, images present, five variants, no
recent descriptions) every sub-score is 100, the overall confidence is
round(100×0.7 + 90×0.3) = 97, and the status is `auto_publish` — both
under the thresholds of `loadShopifyConfigSync` (96/75/60) and under the
spec's default thresholds (75/60/60). -/
theorem scorer_example_scenario :
    qualityValidation syncConfigThresholds exampleScorerInput =
      { overall_confidence := 97, status := Status.auto_publish, issues := [],
        quality_scores := { content_quality := 100, completeness := 100,
                            uniqueness := 100, seo_readiness := 100 } }
    ∧ (qualityValidation specDefaultThresholds exampleScorerInput).status
        = Status.auto_publish := by
  constructor <;> with_unfolding_all rfl

/-- C9: sub-scores are not floored at 0: on `negativeScoreInput` (whose 40
recent descriptions each have similarity exactly 1/2, in the info band,
so the −10 penalties stack without an early loop exit) the uniqueness
sub-score is −300 and the overall confidence is −21, both strictly
negative. -/
theorem scorer_negative_scores :
    (qualityValidation specDefaultThresholds negativeScoreInput).quality_scores.uniqueness < 0
    ∧ (qualityValidation specDefaultThresholds negativeScoreInput).overall_confidence < 0 :=
  ⟨of_decide_eq_true (by with_unfolding_all rfl),
   of_decide_eq_true (by with_unfolding_all rfl)⟩

end ExampleScenarioClaims
